import Mathlib

/-!
Shallow embedding of `backend/search_tools.py`: `CourseSearchTool`,
`CourseOutlineTool` and `ToolManager`, with theorems about the formatting,
source-tracking and dispatch behaviour the spec describes.

Python conventions carried over explicitly:
* a value that may be absent (a missing dict key, an optional argument) is
  an `Option`;
* a Python truthiness test (`if s:` on an optional string, `if n:` on an
  optional int) is `optStrTruthy` / `optIntTruthy` — the empty string and
  the number zero are falsy there, unlike an `is not None` check;
* a raised exception is the `.error` branch of `Except String`; the
  outcomes of the vector-store calls a method makes are passed in as
  `Except`-valued arguments, so raising inside the store is expressible;
* keyword arguments of a generic `execute(**kwargs)` call are an
  association list of strings (their content never matters to the manager).
-/

/-- Python truthiness of an optional string (`if s:`): present and non-empty. -/
def optStrTruthy : Option String → Bool
  | some s => s ≠ ""
  | none => false

/-- Python truthiness of an optional int (`if n:`): present and nonzero. -/
def optIntTruthy : Option Int → Bool
  | some n => n ≠ 0
  | none => false

/-- A source object recorded for the UI, `{"text": ..., "link": ...}`
(`search_tools.py` lines 114-117). -/
structure Source where
  text : String
  link : Option String
deriving DecidableEq

/-- One metadata dict attached to a matched chunk, as
`CourseSearchTool._format_results` reads it (keys `course_title`,
`lesson_number`, `lesson_link`; a missing key is `none`). -/
structure ChunkMeta where
  course_title : Option String
  lesson_number : Option Int
  lesson_link : Option String
deriving DecidableEq

/-- `SearchResults` from `backend/vector_store.py`: parallel sequences of
matched document text and metadata plus an optional error string (the
spec's data model; the tests build it with fields `documents`, `metadata`,
`distances`, `error`).  The `distances` sequence is never read by
`search_tools.py` and is omitted. -/
structure SearchResults where
  documents : List String
  metadata : List ChunkMeta
  error : Option String
deriving DecidableEq

/-- Modelled from the spec: `SearchResults.is_empty` is defined in
`backend/vector_store.py`, which is not among the sources here.  The
spec's empty branch is about error-free searches "returning no documents",
so emptiness is the documents sequence being empty. -/
def SearchResults.is_empty (r : SearchResults) : Bool :=
  r.documents.isEmpty

/-- The mutable state of a `CourseSearchTool` instance: its
`last_sources` field (`search_tools.py` line 26; the store reference is
modelled by passing each store call's outcome to `execute`). -/
structure CourseSearchTool where
  last_sources : List Source
deriving DecidableEq

/-- The loop of `_format_results` (lines 97-120): one pass over
`zip(results.documents, results.metadata)` accumulating, in order, the
formatted block and the source object of each pair. -/
def CourseSearchTool.formatEntries :
    List (String × ChunkMeta) → List String × List Source
  | [] => ([], [])
  | (doc, meta) :: rest =>
    let course_title := meta.course_title.getD "unknown"
    let lessonPart : String :=
      match meta.lesson_number with
      | some n => " - Lesson " ++ toString n
      | none => ""
    let header := "[" ++ course_title ++ lessonPart ++ "]"
    let source_text := course_title ++ lessonPart
    let source_obj : Source :=
      { text := source_text
        link := if optStrTruthy meta.lesson_link then meta.lesson_link else none }
    let tail := CourseSearchTool.formatEntries rest
    ((header ++ "\n" ++ doc) :: tail.1, source_obj :: tail.2)

/-- `CourseSearchTool._format_results` (lines 92-128): format the zipped
hits, overwrite `last_sources` with the fresh source list, and return the
blocks joined by blank lines. -/
def CourseSearchTool.format_results (r : SearchResults) :
    String × CourseSearchTool :=
  let fe := CourseSearchTool.formatEntries (r.documents.zip r.metadata)
  (String.intercalate "\n\n" fe.1, { last_sources := fe.2 })

/-- `CourseSearchTool.execute` (lines 53-90).  `search` is the outcome of
`self.store.search(...)`: `.error e` models the store raising, `.ok r` a
returned `SearchResults`.  The result pairs the reply string with the
instance state after the call. -/
def CourseSearchTool.execute (st : CourseSearchTool) (query : String)
    (course_name : Option String) (lesson_number : Option Int)
    (search : Except String SearchResults) :
    Except String (String × CourseSearchTool) :=
  match search with
  | .error e => .error e
  | .ok results =>
    if optStrTruthy results.error then
      .ok (results.error.getD "", st)
    else if results.is_empty then
      let filter_info :=
        (if optStrTruthy course_name then
          " in course '" ++ course_name.getD "" ++ "'"
        else "") ++
        (if optIntTruthy lesson_number then
          " in lesson " ++ toString (lesson_number.getD 0)
        else "")
      .ok ("No relevant content found" ++ filter_info ++ ".", st)
    else
      .ok (CourseSearchTool.format_results results)

/-- The spec's per-hit block (section 4.1): a `[Course - Lesson N]` header
(the lesson part exactly when the metadata has a lesson number), a
newline, then the document text. -/
def specHitBlock (doc : String) (meta : ChunkMeta) : String :=
  "[" ++ meta.course_title.getD "unknown" ++
    (match meta.lesson_number with
      | some n => " - Lesson " ++ toString n
      | none => "") ++ "]" ++ "\n" ++ doc

/-- The spec's per-hit source object: the header text without brackets,
plus the lesson link when one is recorded (and truthy). -/
def specSource (meta : ChunkMeta) : Source :=
  { text := meta.course_title.getD "unknown" ++
      (match meta.lesson_number with
        | some n => " - Lesson " ++ toString n
        | none => "")
    link := if optStrTruthy meta.lesson_link then meta.lesson_link else none }

/-- One entry of the parsed `lessons_json` list (keys `lesson_number`,
`lesson_title`; a missing key is `none`). -/
structure Lesson where
  lesson_number : Option Int
  lesson_title : Option String
deriving DecidableEq

/-- One catalog metadata dict (`course_catalog.get(...)["metadatas"][0]`).
`lessons` stands for `json.loads(metadata.get("lessons_json", "[]"))`:
`.ok` is the parsed lesson list (a missing key parses to `[]`), `.error e`
models `json.loads` raising with message `e` — which happens inside the
`try` block of `CourseOutlineTool.execute`. -/
structure CatalogMeta where
  title : Option String
  course_link : Option String
  lessons : Except String (List Lesson)

/-- The reply of `course_catalog.get` (line 172): its `metadatas` list.
`execute` guards `if not results or not results.get("metadatas") or not
results["metadatas"]`: an absent or falsy reply is `none`, and an empty
`metadatas` list is falsy as well. -/
structure CatalogGetResult where
  metadatas : List CatalogMeta

/-- The sort key `lambda x: x.get("lesson_number", 0)` (line 195). -/
def lessonKey (l : Lesson) : Int :=
  l.lesson_number.getD 0

/-- The comparison `sorted` uses on that key. -/
def lessonLE (a b : Lesson) : Prop :=
  lessonKey a ≤ lessonKey b

instance : DecidableRel lessonLE := fun a b =>
  inferInstanceAs (Decidable (lessonKey a ≤ lessonKey b))

/-- Stable insertion of a lesson into an already-sorted list: the new
element goes before the first key greater than or equal to its own; since
`sortLessons` folds from the right, earlier elements of the input are
inserted later and land before equal keys, which is the stable order. -/
def insertLesson (x : Lesson) : List Lesson → List Lesson
  | [] => [x]
  | y :: ys => if lessonKey x ≤ lessonKey y then x :: y :: ys else y :: insertLesson x ys

/-- `sorted(lessons, key=lambda x: x.get("lesson_number", 0))` (line 195):
a stable ascending sort on the lesson-number key; Python's `sorted` is the
stable ascending sort on the same key, so they agree. -/
def sortLessons : List Lesson → List Lesson
  | [] => []
  | x :: xs => insertLesson x (sortLessons xs)

/-- The lesson line `f"  Lesson {lesson_num}: {lesson_title}"` (lines
196-198), with the dict defaults `"N/A"` and `"Untitled"`. -/
def lessonLine (l : Lesson) : String :=
  "  Lesson " ++
    (match l.lesson_number with | some n => toString n | none => "N/A") ++
    ": " ++ l.lesson_title.getD "Untitled"

/-- `CourseOutlineTool.execute` (lines 154-205).  The store calls are
passed in as outcomes: `resolve` for `store._resolve_course_name`
(`.error` = it raised, which happens before the `try` block) and
`catalog` for `store.course_catalog.get` (`.error` = it raised, inside the
`try` block, hence caught).  A `.error` in the metadata's parsed lessons
models `json.loads` raising, also inside the `try` block. -/
def CourseOutlineTool.execute (course_name : String)
    (resolve : Except String (Option String))
    (catalog : Except String (Option CatalogGetResult)) :
    Except String String :=
  match resolve with
  | .error e => .error e
  | .ok resolvedName =>
    if !optStrTruthy resolvedName then
      .ok ("No course found matching '" ++ course_name ++ "'")
    else
      let resolved_course_title := resolvedName.getD ""
      match catalog with
      | .error e => .ok ("Error retrieving course outline: " ++ e)
      | .ok results =>
        match results with
        | none => .ok ("No course metadata found for '" ++ resolved_course_title ++ "'")
        | some res =>
          match res.metadatas with
          | [] => .ok ("No course metadata found for '" ++ resolved_course_title ++ "'")
          | metadata :: _ =>
            match metadata.lessons with
            | .error e => .ok ("Error retrieving course outline: " ++ e)
            | .ok lessons =>
              let course_title := metadata.title.getD "Unknown Course"
              let parts1 : List String :=
                if optStrTruthy metadata.course_link then
                  ["Course: " ++ course_title,
                   "Course Link: " ++ metadata.course_link.getD ""]
                else
                  ["Course: " ++ course_title]
              let parts2 : List String :=
                if lessons.isEmpty then
                  parts1 ++ ["\nNo lessons found for this course."]
                else
                  parts1 ++
                    (("\nLessons (" ++ toString lessons.length ++ " total):") ::
                      (sortLessons lessons).map lessonLine)
              .ok (String.intercalate "\n" parts2)

/-- A tool definition dict as the manager reads it: only its `"name"` key
matters to `register_tool` (`tool_def.get("name")`; a missing key is
`none`). -/
structure ToolDef where
  name : Option String
deriving DecidableEq

/-- A registered tool as `ToolManager` sees it: its definition, its
`execute(**kwargs)` entry point, and its `last_sources` attribute (`none`
models a tool without the attribute, so `hasattr` is `Option.isSome`). -/
structure Tool where
  definition : ToolDef
  execute : List (String × String) → String
  last_sources : Option (List Source)

/-- The manager's `self.tools` dict: an insertion-ordered association
list with distinct keys maintained by `dictSet`. -/
structure ToolManager where
  tools : List (String × Tool)

/-- Python dict assignment `self.tools[name] = tool`: replace in place
when the key is present, append otherwise. -/
def ToolManager.dictSet (m : List (String × Tool)) (k : String) (v : Tool) :
    List (String × Tool) :=
  match m with
  | [] => [(k, v)]
  | (k0, v0) :: rest =>
    if k0 = k then (k, v) :: rest else (k0, v0) :: ToolManager.dictSet rest k v

/-- Dict lookup, for `tool_name in self.tools` and `self.tools[tool_name]`. -/
def ToolManager.dictGet (m : List (String × Tool)) (k : String) : Option Tool :=
  match m with
  | [] => none
  | (k0, v0) :: rest => if k0 = k then some v0 else ToolManager.dictGet rest k

/-- `ToolManager.register_tool` (lines 214-220): `ValueError` when the
definition's name is missing or falsy (the empty string), dict assignment
otherwise. -/
def ToolManager.register_tool (m : ToolManager) (t : Tool) :
    Except String ToolManager :=
  if optStrTruthy t.definition.name then
    .ok ⟨ToolManager.dictSet m.tools (t.definition.name.getD "") t⟩
  else
    .error "Tool must have a 'name' in its definition"

/-- `ToolManager.get_tool_definitions` (lines 222-224). -/
def ToolManager.get_tool_definitions (m : ToolManager) : List ToolDef :=
  m.tools.map (fun p => p.2.definition)

/-- `ToolManager.execute_tool` (lines 226-231): dispatch by name; an
unregistered name yields a plain not-found string, no exception. -/
def ToolManager.execute_tool (m : ToolManager) (tool_name : String)
    (kwargs : List (String × String)) : String :=
  match ToolManager.dictGet m.tools tool_name with
  | none => "Tool '" ++ tool_name ++ "' not found"
  | some t => t.execute kwargs

/-- The loop of `get_last_sources` (lines 236-239): the first registered
tool that has the attribute with a truthy (non-empty) list wins. -/
def ToolManager.firstTruthySources : List (String × Tool) → List Source
  | [] => []
  | (_, t) :: rest =>
    match t.last_sources with
    | some (s :: ss) => s :: ss
    | _ => ToolManager.firstTruthySources rest

/-- `ToolManager.get_last_sources` (lines 233-239). -/
def ToolManager.get_last_sources (m : ToolManager) : List Source :=
  ToolManager.firstTruthySources m.tools

/-- `ToolManager.reset_sources` (lines 241-245): every registered tool
with the attribute gets the empty list; a tool without it is untouched. -/
def ToolManager.reset_sources (m : ToolManager) : ToolManager :=
  ⟨m.tools.map (fun p =>
    (p.1,
      match p.2.last_sources with
      | some _ => { p.2 with last_sources := some [] }
      | none => p.2))⟩

/-! Concrete instances used by the closed theorems below. -/

def srcOld : Source := ⟨"Old Course - Lesson 1", none⟩

def srcAlpha : Source := ⟨"Alpha Course - Lesson 1", none⟩

def srcBeta : Source := ⟨"Beta Course - Lesson 2", some "http://b/2"⟩

def metaL1 : ChunkMeta := ⟨some "Test Course", some 1, some "http://t/1"⟩

def metaL2 : ChunkMeta := ⟨some "Test Course", some 2, none⟩

def resultsTwo : SearchResults := ⟨["doc one", "doc two"], [metaL1, metaL2], none⟩

def resultsMismatch : SearchResults := ⟨["doc one", "doc two"], [metaL1], none⟩

def toolAlpha : Tool := ⟨⟨some "alpha"⟩, fun _ => "alpha ran", some [srcAlpha]⟩

def toolBeta : Tool := ⟨⟨some "beta"⟩, fun _ => "beta ran", some [srcBeta]⟩

def toolPlain : Tool := ⟨⟨some "plain"⟩, fun _ => "plain ran", none⟩

def toolBlankName : Tool := ⟨⟨some ""⟩, fun _ => "never runs", none⟩

def toolAlphaNew : Tool := ⟨⟨some "alpha"⟩, fun _ => "new alpha ran", none⟩

def mgrOne : ToolManager := ⟨[("alpha", toolAlpha)]⟩

def mgrTwo : ToolManager := ⟨[("alpha", toolAlpha), ("beta", toolBeta)]⟩

def mgrPlainBeta : ToolManager := ⟨[("plain", toolPlain), ("beta", toolBeta)]⟩

def cmLinkBlank : CatalogMeta := ⟨some "Course T", some "", .ok []⟩

def lesTwo : Lesson := ⟨some 2, some "Advanced"⟩

def lesZero : Lesson := ⟨some 0, some "Welcome"⟩

def cmFull : CatalogMeta := ⟨some "Course X", some "http://x", .ok [lesTwo, lesZero]⟩

/-! General lemmas about the embedding, shared by the claim theorems. -/

/-- The formatting loop is the map of the spec's per-hit block and per-hit
source over the zipped hits, in order. -/
theorem formatEntries_eq (l : List (String × ChunkMeta)) :
    CourseSearchTool.formatEntries l =
      (l.map (fun p => specHitBlock p.1 p.2), l.map (fun p => specSource p.2)) := by
  induction l with
  | nil => rfl
  | cons hd tl ih =>
    obtain ⟨d, m⟩ := hd
    simp only [CourseSearchTool.formatEntries, ih, List.map_cons, specHitBlock, specSource]

/-- Branch of `execute` on a truthy error string: return it, state kept. -/
theorem execute_ok_error (st : CourseSearchTool) (q : String)
    (cn : Option String) (ln : Option Int) (r : SearchResults)
    (h : optStrTruthy r.error = true) :
    CourseSearchTool.execute st q cn ln (.ok r) = .ok (r.error.getD "", st) := by
  simp [CourseSearchTool.execute, h]

/-- Branch of `execute` on empty error-free results: the filter-qualified
message, state kept. -/
theorem execute_ok_empty (st : CourseSearchTool) (q : String)
    (cn : Option String) (ln : Option Int) (r : SearchResults)
    (h : optStrTruthy r.error = false) (hd : r.documents = []) :
    CourseSearchTool.execute st q cn ln (.ok r) =
      .ok ("No relevant content found" ++
        ((if optStrTruthy cn then " in course '" ++ cn.getD "" ++ "'" else "") ++
         (if optIntTruthy ln then " in lesson " ++ toString (ln.getD 0) else "")) ++
        ".", st) := by
  have hie : r.is_empty = true := by simp [SearchResults.is_empty, hd]
  simp [CourseSearchTool.execute, h, hie]

/-- Branch of `execute` on non-empty error-free results: the joined blocks
and the overwritten sources, both maps over the zipped hits. -/
theorem execute_ok_format (st : CourseSearchTool) (q : String)
    (cn : Option String) (ln : Option Int) (r : SearchResults)
    (h : optStrTruthy r.error = false) (hd : r.documents ≠ []) :
    CourseSearchTool.execute st q cn ln (.ok r) =
      .ok (String.intercalate "\n\n"
          ((r.documents.zip r.metadata).map (fun p => specHitBlock p.1 p.2)),
        ⟨(r.documents.zip r.metadata).map (fun p => specSource p.2)⟩) := by
  have hie : r.is_empty = false := by
    simp [SearchResults.is_empty, List.isEmpty_iff]
    exact hd
  simp [CourseSearchTool.execute, h, hie, CourseSearchTool.format_results,
    formatEntries_eq]

/-- C1 (corrected): when the store's `SearchResults` carries a non-None,
non-empty error string, `CourseSearchTool.execute` returns exactly that
string and leaves `last_sources` untouched — no document is formatted. -/
theorem c1_error_returned_verbatim (st : CourseSearchTool) (q : String)
    (cn : Option String) (ln : Option Int) (r : SearchResults) (e : String)
    (he : r.error = some e) (hne : e ≠ "") :
    CourseSearchTool.execute st q cn ln (.ok r) = .ok (e, st) := by
  have h : optStrTruthy r.error = true := by simp [he, optStrTruthy, hne]
  rw [execute_ok_error st q cn ln r h, he]
  rfl

/-- C1 counterexample: a `SearchResults` whose error is the non-None empty
string is not returned verbatim — `if results.error:` is a Python
truthiness test, so the empty branch answers instead. -/
theorem c1_empty_error_not_returned :
    CourseSearchTool.execute ⟨[]⟩ "q" none none (.ok ⟨[], [], some ""⟩) =
      .ok ("No relevant content found.", ⟨[]⟩) ∧
    "No relevant content found." ≠ "" := by
  exact ⟨rfl, by decide⟩

/-- C1 witness: the amended theorem applied at a concrete error result. -/
theorem c1_error_returned_verbatim_witness :
    CourseSearchTool.execute ⟨[]⟩ "q" none none (.ok ⟨[], [], some "boom"⟩) =
      .ok ("boom", ⟨[]⟩) :=
  c1_error_returned_verbatim ⟨[]⟩ "q" none none ⟨[], [], some "boom"⟩ "boom" rfl
    (by decide)

/-- C2 (corrected): a non-empty, error-free search records one source per
zipped `(document, metadata)` pair, the i-th source derived from the i-th
pair in input order; when the two sequences differ in length only the
first `min` of the two lengths documents contribute a source. -/
theorem c2_sources_per_zipped_pair (st : CourseSearchTool) (q : String)
    (cn : Option String) (ln : Option Int) (r : SearchResults)
    (he : r.error = none) (hd : r.documents ≠ []) :
    ∃ out, CourseSearchTool.execute st q cn ln (.ok r) =
        .ok (out, ⟨(r.documents.zip r.metadata).map (fun p => specSource p.2)⟩) ∧
      (r.documents.zip r.metadata).length =
        min r.documents.length r.metadata.length := by
  refine ⟨_, execute_ok_format st q cn ln r (by simp [he, optStrTruthy]) hd, ?_⟩
  simpa using List.length_zip r.documents r.metadata

/-- C2 counterexample: two documents zipped against one metadata entry
record one source object, not one per returned document. -/
theorem c2_mismatched_lengths_drop_sources :
    (CourseSearchTool.execute ⟨[]⟩ "q" none none (.ok resultsMismatch)).map
        (fun p => p.2.last_sources.length) = .ok 1 ∧
      resultsMismatch.documents.length = 2 ∧ (1 : Nat) ≠ 2 := by
  exact ⟨rfl, rfl, by decide⟩

/-- C2 witness: the amended theorem applied at the mismatched-lengths
result. -/
theorem c2_sources_per_zipped_pair_witness :
    ∃ out, CourseSearchTool.execute ⟨[]⟩ "q" none none (.ok resultsMismatch) =
        .ok (out, ⟨(resultsMismatch.documents.zip resultsMismatch.metadata).map
          (fun p => specSource p.2)⟩) ∧
      (resultsMismatch.documents.zip resultsMismatch.metadata).length =
        min resultsMismatch.documents.length resultsMismatch.metadata.length :=
  c2_sources_per_zipped_pair ⟨[]⟩ "q" none none resultsMismatch rfl (by decide)

/-- C3 (confirmed): on a non-empty, error-free result with parallel
sequences (equally many documents and metadata entries, the data model's
invariant), `execute` returns the blocks — header `[course - Lesson N]`
(lesson part exactly when the metadata has a lesson number), newline,
document — joined by one blank line, one block per document. -/
theorem c3_blocks_joined_by_blank_lines (st : CourseSearchTool) (q : String)
    (cn : Option String) (ln : Option Int) (r : SearchResults)
    (he : r.error = none) (hd : r.documents ≠ [])
    (hlen : r.documents.length = r.metadata.length) :
    ∃ st2, CourseSearchTool.execute st q cn ln (.ok r) =
        .ok (String.intercalate "\n\n"
          ((r.documents.zip r.metadata).map (fun p => specHitBlock p.1 p.2)), st2) ∧
      ((r.documents.zip r.metadata).map (fun p => specHitBlock p.1 p.2)).length =
        r.documents.length := by
  refine ⟨_, execute_ok_format st q cn ln r (by simp [he, optStrTruthy]) hd, ?_⟩
  simp [List.length_zip, hlen]

/-- C3 witness: the theorem applied at a concrete two-hit result. -/
theorem c3_blocks_joined_by_blank_lines_witness :
    ∃ st2, CourseSearchTool.execute ⟨[]⟩ "q" none none (.ok resultsTwo) =
        .ok (String.intercalate "\n\n"
          ((resultsTwo.documents.zip resultsTwo.metadata).map
            (fun p => specHitBlock p.1 p.2)), st2) ∧
      ((resultsTwo.documents.zip resultsTwo.metadata).map
        (fun p => specHitBlock p.1 p.2)).length = resultsTwo.documents.length :=
  c3_blocks_joined_by_blank_lines ⟨[]⟩ "q" none none resultsTwo rfl (by decide) rfl

/-- C4 (corrected): for every error-free empty search, over all filter
shapes — classified exhaustively by the truthiness of each filter — the
message incorporates each truthy filter: the course when `course_name` is
a present non-empty string, the lesson when `lesson_number` is present and
nonzero; a falsy filter (absent, or supplied as `0` / the empty string) is
dropped by the `if course_name:` / `if lesson_number:` truthiness tests
and leaves no trace in the message. -/
theorem c4_no_content_message (st : CourseSearchTool) (q : String)
    (cn : Option String) (ln : Option Int) (r : SearchResults)
    (he : r.error = none) (hd : r.documents = []) :
    (optStrTruthy cn = false → optIntTruthy ln = false →
       CourseSearchTool.execute st q cn ln (.ok r) =
         .ok ("No relevant content found.", st)) ∧
    (∀ c : String, cn = some c → c ≠ "" → optIntTruthy ln = false →
       CourseSearchTool.execute st q cn ln (.ok r) =
         .ok ("No relevant content found" ++ (" in course '" ++ (c ++ "'.")), st)) ∧
    (optStrTruthy cn = false → ∀ l : Int, ln = some l → l ≠ 0 →
       CourseSearchTool.execute st q cn ln (.ok r) =
         .ok ("No relevant content found" ++ (" in lesson " ++ (toString l ++ ".")), st)) ∧
    (∀ (c : String) (l : Int), cn = some c → c ≠ "" → ln = some l → l ≠ 0 →
       CourseSearchTool.execute st q cn ln (.ok r) =
         .ok ("No relevant content found" ++ (" in course '" ++ (c ++ ("'" ++
              (" in lesson " ++ (toString l ++ "."))))), st)) := by
  have herr : optStrTruthy r.error = false := by simp [he, optStrTruthy]
  refine ⟨?_, ?_, ?_, ?_⟩
  · intro htc htl
    rw [execute_ok_empty st q cn ln r herr hd, htc, htl]
    rfl
  · intro c hc hcne htl
    rw [execute_ok_empty st q cn ln r herr hd, hc, htl]
    have h1 : optStrTruthy (some c) = true := by simp [optStrTruthy, hcne]
    simp [h1, String.append_assoc]
  · intro htc l hl hlne
    rw [execute_ok_empty st q cn ln r herr hd, htc, hl]
    have h2 : optIntTruthy (some l) = true := by simp [optIntTruthy, hlne]
    simp [h2, String.append_assoc]
  · intro c l hc hcne hl hlne
    rw [execute_ok_empty st q cn ln r herr hd, hc, hl]
    have h1 : optStrTruthy (some c) = true := by simp [optStrTruthy, hcne]
    have h2 : optIntTruthy (some l) = true := by simp [optIntTruthy, hlne]
    simp [h1, h2, String.append_assoc]

/-- C4 counterexample: an empty, error-free search filtered to lesson 0
answers the bare message — the lesson filter the caller supplied is not
named, against the claim's "including 0". -/
theorem c4_lesson_zero_dropped :
    CourseSearchTool.execute ⟨[]⟩ "q" none (some 0) (.ok ⟨[], [], none⟩) =
      .ok ("No relevant content found.", ⟨[]⟩) ∧
    "No relevant content found." ≠ "No relevant content found in lesson 0." := by
  exact ⟨rfl, by decide⟩

/-- C4 witness: the amended theorem applied at a course-only, a
lesson-only, and a both-filters search. -/
theorem c4_no_content_message_witness :
    (CourseSearchTool.execute ⟨[]⟩ "q" (some "MCP") none (.ok ⟨[], [], none⟩) =
      .ok ("No relevant content found" ++ (" in course '" ++ ("MCP" ++ "'.")), ⟨[]⟩)) ∧
    (CourseSearchTool.execute ⟨[]⟩ "q" none (some 3) (.ok ⟨[], [], none⟩) =
      .ok ("No relevant content found" ++ (" in lesson " ++ (toString (3 : Int) ++ ".")), ⟨[]⟩)) ∧
    (CourseSearchTool.execute ⟨[]⟩ "q" (some "MCP") (some 7) (.ok ⟨[], [], none⟩) =
      .ok ("No relevant content found" ++ (" in course '" ++ ("MCP" ++ ("'" ++
           (" in lesson " ++ (toString (7 : Int) ++ "."))))), ⟨[]⟩)) :=
  ⟨(c4_no_content_message ⟨[]⟩ "q" (some "MCP") none ⟨[], [], none⟩ rfl rfl).2.1
      "MCP" rfl (by decide) rfl,
   (c4_no_content_message ⟨[]⟩ "q" none (some 3) ⟨[], [], none⟩ rfl rfl).2.2.1
      rfl 3 rfl (by decide),
   (c4_no_content_message ⟨[]⟩ "q" (some "MCP") (some 7) ⟨[], [], none⟩ rfl rfl).2.2.2
      "MCP" 7 rfl (by decide) rfl (by decide)⟩

/-- C5 (corrected): `last_sources` is overwritten only by calls that reach
the formatting step (non-empty, error-free results, where it becomes the
fresh per-pair source list); a call whose search reports a truthy error or
returns no documents leaves the previous sources in place.
`ToolManager.reset_sources` does set `last_sources` to `[]` on every
registered tool that has the attribute, leaving attribute-less tools
alone. -/
theorem c5_last_sources_lifecycle :
    (∀ (st : CourseSearchTool) (q : String) (cn : Option String)
       (ln : Option Int) (r : SearchResults), optStrTruthy r.error = true →
       CourseSearchTool.execute st q cn ln (.ok r) = .ok (r.error.getD "", st)) ∧
    (∀ (st : CourseSearchTool) (q : String) (cn : Option String)
       (ln : Option Int) (r : SearchResults), optStrTruthy r.error = false →
       r.documents = [] →
       ∃ msg, CourseSearchTool.execute st q cn ln (.ok r) = .ok (msg, st)) ∧
    (∀ (st : CourseSearchTool) (q : String) (cn : Option String)
       (ln : Option Int) (r : SearchResults), optStrTruthy r.error = false →
       r.documents ≠ [] →
       ∃ out, CourseSearchTool.execute st q cn ln (.ok r) =
         .ok (out, ⟨(r.documents.zip r.metadata).map (fun p => specSource p.2)⟩)) ∧
    (∀ m : ToolManager,
       (ToolManager.reset_sources m).tools.map (fun p => p.2.last_sources) =
         m.tools.map (fun p => p.2.last_sources.map (fun _ => ([] : List Source)))) := by
  refine ⟨?_, ?_, ?_, ?_⟩
  · intro st q cn ln r h
    exact execute_ok_error st q cn ln r h
  · intro st q cn ln r h hd
    exact ⟨_, execute_ok_empty st q cn ln r h hd⟩
  · intro st q cn ln r h hd
    exact ⟨_, execute_ok_format st q cn ln r h hd⟩
  · intro m
    rw [ToolManager.reset_sources, List.map_map]
    refine List.map_congr_left ?_
    intro p _
    cases hp : p.2.last_sources <;> simp [hp]

/-- C5 counterexample: a search whose store reply carries an error returns
early and does not overwrite `last_sources` — the stale source of the
previous search survives the call. -/
theorem c5_stale_sources_survive_error :
    CourseSearchTool.execute ⟨[srcOld]⟩ "q" none none (.ok ⟨[], [], some "boom"⟩) =
      .ok ("boom", ⟨[srcOld]⟩) ∧ ([srcOld] : List Source) ≠ [] := by
  exact ⟨rfl, by decide⟩

/-- C5 witness: the truthy-error clause applied at a concrete stale state. -/
theorem c5_last_sources_lifecycle_witness :
    CourseSearchTool.execute ⟨[srcOld]⟩ "q2" none none (.ok ⟨[], [], some "down"⟩) =
      .ok ("down", ⟨[srcOld]⟩) :=
  c5_last_sources_lifecycle.1 ⟨[srcOld]⟩ "q2" none none ⟨[], [], some "down"⟩
    (by decide)

/-- C6 (confirmed): `execute_tool` dispatches a registered name to that
tool's `execute(**kwargs)` and returns its result unchanged; an
unregistered name yields the plain string `Tool '<name>' not found` — a
returned value in the model, not a raised exception — and the manager's
registry is read, never written, by dispatch. -/
theorem c6_execute_tool_dispatch (m : ToolManager) (tool_name : String)
    (kwargs : List (String × String)) :
    (∀ t : Tool, ToolManager.dictGet m.tools tool_name = some t →
       ToolManager.execute_tool m tool_name kwargs = t.execute kwargs) ∧
    (ToolManager.dictGet m.tools tool_name = none →
       ToolManager.execute_tool m tool_name kwargs =
         "Tool '" ++ tool_name ++ "' not found") := by
  constructor
  · intro t ht
    simp [ToolManager.execute_tool, ht]
  · intro hn
    simp [ToolManager.execute_tool, hn]

/-- C6 witness: dispatch to a registered tool and the not-found string for
an unregistered name, on a concrete one-tool manager. -/
theorem c6_execute_tool_dispatch_witness :
    ToolManager.execute_tool mgrOne "alpha" [] = "alpha ran" ∧
    ToolManager.execute_tool mgrOne "gamma" [] = "Tool '" ++ "gamma" ++ "' not found" :=
  ⟨(c6_execute_tool_dispatch mgrOne "alpha" []).1 toolAlpha rfl,
   (c6_execute_tool_dispatch mgrOne "gamma" []).2 rfl⟩

/-- The loop of `get_last_sources` skips every tool whose attribute is
absent or holds the empty (falsy) list. -/
theorem firstTruthySources_all_empty :
    ∀ l : List (String × Tool),
      (∀ p ∈ l, p.2.last_sources = none ∨ p.2.last_sources = some []) →
      ToolManager.firstTruthySources l = []
  | [], _ => rfl
  | (k, t) :: rest, h => by
    have ht : t.last_sources = none ∨ t.last_sources = some [] :=
      h (k, t) (List.mem_cons_self _ _)
    have hr := firstTruthySources_all_empty rest
      (fun p hp => h p (List.mem_cons_of_mem _ hp))
    rcases ht with ht | ht <;>
      simp [ToolManager.firstTruthySources, ht, hr]

/-- C7 (corrected): `get_last_sources` does not aggregate across tools —
it returns the `last_sources` of the first registered tool holding a
truthy (non-empty) list, skipping tools whose attribute is absent or
empty, and the empty list when no registered tool holds any sources. -/
theorem c7_first_nonempty_sources :
    (∀ m : ToolManager,
       (∀ p ∈ m.tools, p.2.last_sources = none ∨ p.2.last_sources = some []) →
       ToolManager.get_last_sources m = []) ∧
    (∀ (pre rest : List (String × Tool)) (k : String) (t : Tool)
       (s : Source) (ss : List Source),
       (∀ p ∈ pre, p.2.last_sources = none ∨ p.2.last_sources = some []) →
       t.last_sources = some (s :: ss) →
       ToolManager.get_last_sources ⟨pre ++ (k, t) :: rest⟩ = s :: ss) := by
  constructor
  · intro m h
    exact firstTruthySources_all_empty m.tools h
  · intro pre rest k t s ss hpre ht
    rw [ToolManager.get_last_sources]
    induction pre with
    | nil => simp [ToolManager.firstTruthySources, ht]
    | cons hd tl ih =>
      have htl := ih (fun p hp => hpre p (List.mem_cons_of_mem _ hp))
      obtain ⟨k0, t0⟩ := hd
      have hhd : t0.last_sources = none ∨ t0.last_sources = some [] :=
        hpre (k0, t0) (List.mem_cons_self _ _)
      rcases hhd with hhd | hhd <;>
        simp [ToolManager.firstTruthySources, hhd, htl]

/-- C7 counterexample: two registered tools each hold a non-empty source
list, yet the reply is the first tool's list alone — the second tool's
source is missing, so the result does not reflect all of them. -/
theorem c7_second_tool_sources_missing :
    ToolManager.get_last_sources mgrTwo = [srcAlpha] ∧
    srcBeta ∉ ToolManager.get_last_sources mgrTwo := by
  constructor
  · rfl
  · intro h
    rw [show ToolManager.get_last_sources mgrTwo = [srcAlpha] from rfl] at h
    simp [srcBeta, srcAlpha] at h

/-- C7 witness: the first-truthy clause applied with a source-less tool
registered ahead of a tool holding sources. -/
theorem c7_first_nonempty_sources_witness :
    ToolManager.get_last_sources mgrPlainBeta = [srcBeta] :=
  c7_first_nonempty_sources.2 [("plain", toolPlain)] [] "beta" toolBeta srcBeta []
    (by intro p hp
        rw [List.mem_singleton] at hp
        subst hp
        exact Or.inl rfl)
    rfl

/-- C8 (corrected): a store exception propagates out of
`CourseSearchTool.execute` unchanged, and out of
`CourseOutlineTool.execute` when `_resolve_course_name` raises (it runs
before the `try` block); but when `course_catalog.get` raises inside the
`try` block, `CourseOutlineTool.execute` catches the exception and returns
the string `Error retrieving course outline: <message>` instead of
propagating it. -/
theorem c8_exception_propagation :
    (∀ (st : CourseSearchTool) (q : String) (cn : Option String)
       (ln : Option Int) (e : String),
       CourseSearchTool.execute st q cn ln (.error e) = .error e) ∧
    (∀ (course_name e : String) (cat : Except String (Option CatalogGetResult)),
       CourseOutlineTool.execute course_name (.error e) cat = .error e) ∧
    (∀ (course_name e : String) (resolved : Option String),
       optStrTruthy resolved = true →
       CourseOutlineTool.execute course_name (.ok resolved) (.error e) =
         .ok ("Error retrieving course outline: " ++ e)) := by
  refine ⟨?_, ?_, ?_⟩
  · intro st q cn ln e
    rfl
  · intro course_name e cat
    rfl
  · intro course_name e resolved h
    simp [CourseOutlineTool.execute, h]

/-- C8 counterexample: the catalog fetch raising `boom` inside the outline
tool's `try` block yields an ordinary string reply, not the propagated
exception the claim requires. -/
theorem c8_outline_catches_catalog_exception :
    CourseOutlineTool.execute "MCP" (.ok (some "MCP Course")) (.error "boom") =
      .ok ("Error retrieving course outline: " ++ "boom") ∧
    (Except.ok ("Error retrieving course outline: " ++ "boom") ≠
      (Except.error "boom" : Except String String)) := by
  refine ⟨rfl, ?_⟩
  intro h
  exact Except.noConfusion h

/-- C8 witness: the caught-inside-try clause applied at a concrete
resolved course. -/
theorem c8_exception_propagation_witness :
    CourseOutlineTool.execute "RAG" (.ok (some "RAG Course")) (.error "down") =
      .ok ("Error retrieving course outline: " ++ "down") :=
  c8_exception_propagation.2.2 "RAG" "down" (some "RAG Course") (by decide)

/-- Membership is preserved by the stable insertion. -/
theorem mem_insertLesson (x z : Lesson) :
    ∀ l : List Lesson, (z ∈ insertLesson x l ↔ z = x ∨ z ∈ l)
  | [] => by simp [insertLesson]
  | y :: ys => by
    by_cases hxy : lessonKey x ≤ lessonKey y
    · rw [insertLesson, if_pos hxy]
      simp
    · rw [insertLesson, if_neg hxy]
      simp [mem_insertLesson x z ys, or_left_comm]

/-- The stable insertion keeps the list sorted on the lesson key. -/
theorem pairwise_insertLesson (x : Lesson) :
    ∀ l : List Lesson, l.Pairwise lessonLE → (insertLesson x l).Pairwise lessonLE
  | [], _ => by simp [insertLesson, lessonLE]
  | y :: ys, h => by
    rw [List.pairwise_cons] at h
    by_cases hxy : lessonKey x ≤ lessonKey y
    · rw [insertLesson, if_pos hxy, List.pairwise_cons]
      refine ⟨?_, List.pairwise_cons.mpr h⟩
      intro z hz
      rcases List.mem_cons.mp hz with rfl | hz
      · exact hxy
      · exact le_trans hxy (h.1 z hz)
    · rw [insertLesson, if_neg hxy, List.pairwise_cons]
      refine ⟨?_, pairwise_insertLesson x ys h.2⟩
      intro z hz
      rcases (mem_insertLesson x z ys).mp hz with rfl | hz
      · exact le_of_not_le hxy
      · exact h.1 z hz

/-- The embedded `sorted` produces a list ascending on the lesson key. -/
theorem sortLessons_pairwise :
    ∀ l : List Lesson, (sortLessons l).Pairwise lessonLE
  | [] => List.Pairwise.nil
  | x :: xs => pairwise_insertLesson x (sortLessons xs) (sortLessons_pairwise xs)

/-- The stable insertion is a permutation of consing. -/
theorem insertLesson_perm (x : Lesson) :
    ∀ l : List Lesson, List.Perm (insertLesson x l) (x :: l)
  | [] => List.Perm.refl _
  | y :: ys => by
    by_cases hxy : lessonKey x ≤ lessonKey y
    · rw [insertLesson, if_pos hxy]
    · rw [insertLesson, if_neg hxy]
      exact (List.Perm.cons y (insertLesson_perm x ys)).trans
        (List.Perm.swap x y ys)

/-- The embedded `sorted` is a permutation of its input: every lesson is
listed exactly once. -/
theorem sortLessons_perm : ∀ l : List Lesson, List.Perm (sortLessons l) l
  | [] => List.Perm.refl _
  | x :: xs => (insertLesson_perm x (sortLessons xs)).trans
      (List.Perm.cons x (sortLessons_perm xs))

/-- C9 (corrected): when the fuzzy name resolves to a truthy title with
catalog metadata present and a parsed lesson list, the outline is the
lines `Course: <title>`, then `Course Link: <link>` exactly when the
metadata's link is truthy (non-empty — an empty-string link present in the
metadata is dropped), then a blank-line-preceded `Lessons (<n> total):`
header and one line `  Lesson <number>: <title>` per lesson, a stable
ascending permutation of the course's lessons; a non-truthy resolution
answers `No course found matching '<course_name>'`. -/
theorem c9_outline_rendering :
    (∀ (course_name : String) (resolved : Option String)
       (cat : Except String (Option CatalogGetResult)),
       optStrTruthy resolved = false →
       CourseOutlineTool.execute course_name (.ok resolved) cat =
         .ok ("No course found matching '" ++ course_name ++ "'")) ∧
    (∀ (course_name : String) (resolved : Option String)
       (md : CatalogMeta) (mds : List CatalogMeta) (ls : List Lesson),
       optStrTruthy resolved = true →
       md.lessons = .ok ls → ls ≠ [] →
       CourseOutlineTool.execute course_name (.ok resolved)
           (.ok (some ⟨md :: mds⟩)) =
         .ok (String.intercalate "\n"
           ((if optStrTruthy md.course_link then
               ["Course: " ++ md.title.getD "Unknown Course",
                "Course Link: " ++ md.course_link.getD ""]
             else
               ["Course: " ++ md.title.getD "Unknown Course"]) ++
            (("\nLessons (" ++ toString ls.length ++ " total):") ::
              (sortLessons ls).map lessonLine))) ∧
         (sortLessons ls).Pairwise lessonLE ∧ List.Perm (sortLessons ls) ls) := by
  constructor
  · intro course_name resolved cat h
    simp [CourseOutlineTool.execute, h]
  · intro course_name resolved md mds ls h hls hne
    have hemp : ls.isEmpty = false := by
      simp [List.isEmpty_iff]
      exact hne
    refine ⟨?_, sortLessons_pairwise ls, sortLessons_perm ls⟩
    simp [CourseOutlineTool.execute, h, hls, hemp]

/-- C9 counterexample: catalog metadata whose course link is present but
the empty string renders no `Course Link:` line — `if course_link:` is a
truthiness test, against the claim's "exactly when a course link is
present in the metadata". -/
theorem c9_blank_link_line_missing :
    CourseOutlineTool.execute "T" (.ok (some "Course T"))
        (.ok (some ⟨[cmLinkBlank]⟩)) =
      .ok "Course: Course T\n\nNo lessons found for this course." ∧
    cmLinkBlank.course_link = some "" ∧
    ¬ ("Course Link: ".toList <:+: "Course: Course T\n\nNo lessons found for this course.".toList) := by
  exact ⟨rfl, rfl, by decide⟩

/-- C9 witness: the rendering clause applied at a two-lesson course whose
lessons arrive out of order. -/
theorem c9_outline_rendering_witness :
    CourseOutlineTool.execute "X" (.ok (some "Course X"))
        (.ok (some ⟨[cmFull]⟩)) =
      .ok (String.intercalate "\n"
        ((if optStrTruthy cmFull.course_link then
            ["Course: " ++ cmFull.title.getD "Unknown Course",
             "Course Link: " ++ cmFull.course_link.getD ""]
          else
            ["Course: " ++ cmFull.title.getD "Unknown Course"]) ++
         (("\nLessons (" ++ toString ([lesTwo, lesZero] : List Lesson).length ++ " total):") ::
           (sortLessons [lesTwo, lesZero]).map lessonLine))) ∧
      (sortLessons [lesTwo, lesZero]).Pairwise lessonLE ∧
      List.Perm (sortLessons [lesTwo, lesZero]) [lesTwo, lesZero] :=
  c9_outline_rendering.2 "X" (some "Course X") cmFull [] [lesTwo, lesZero]
    (by decide) rfl (by decide)

/-- Dict assignment makes the assigned key map to the new value. -/
theorem dictGet_dictSet_self (k : String) (v : Tool) :
    ∀ m : List (String × Tool),
      ToolManager.dictGet (ToolManager.dictSet m k v) k = some v
  | [] => by simp [ToolManager.dictSet, ToolManager.dictGet]
  | (k0, v0) :: rest => by
    by_cases h : k0 = k
    · simp [ToolManager.dictSet, h, ToolManager.dictGet]
    · simp [ToolManager.dictSet, h, ToolManager.dictGet,
        dictGet_dictSet_self k v rest]

/-- The keys after a dict assignment are the assigned key plus the old
keys. -/
theorem mem_keys_dictSet (k : String) (v : Tool) (a : String) :
    ∀ m : List (String × Tool),
      (a ∈ (ToolManager.dictSet m k v).map Prod.fst ↔
        a = k ∨ a ∈ m.map Prod.fst)
  | [] => by simp [ToolManager.dictSet]
  | (k0, v0) :: rest => by
    by_cases h : k0 = k
    · subst h
      simp [ToolManager.dictSet]
    · simp [ToolManager.dictSet, h, mem_keys_dictSet k v a rest, or_left_comm]

/-- Dict assignment preserves distinct keys and leaves exactly one entry
under the assigned key. -/
theorem keys_dictSet_nodup_count (k : String) (v : Tool) :
    ∀ m : List (String × Tool), (m.map Prod.fst).Nodup →
      ((ToolManager.dictSet m k v).map Prod.fst).Nodup ∧
      ((ToolManager.dictSet m k v).map Prod.fst).count k = 1
  | [], _ => by simp [ToolManager.dictSet]
  | (k0, v0) :: rest, h => by
    rw [List.map_cons, List.nodup_cons] at h
    by_cases hk : k0 = k
    · subst hk
      refine ⟨?_, ?_⟩
      · simpa [ToolManager.dictSet, List.nodup_cons] using h
      · have : (rest.map Prod.fst).count k0 = 0 :=
          List.count_eq_zero.mpr h.1
        simp [ToolManager.dictSet, List.count_cons, this]
    · obtain ⟨ihn, ihc⟩ := keys_dictSet_nodup_count k v rest h.2
      refine ⟨?_, ?_⟩
      · rw [ToolManager.dictSet]
        rw [if_neg hk]
        rw [List.map_cons, List.nodup_cons]
        refine ⟨?_, ihn⟩
        intro hmem
        rcases (mem_keys_dictSet k v k0 rest).mp hmem with rfl | hmem
        · exact hk rfl
        · exact h.1 hmem
      · rw [ToolManager.dictSet]
        rw [if_neg hk]
        rw [List.map_cons, List.count_cons_of_ne (fun hh => hk hh.symm), ihc]

/-- C10 (corrected): registering a tool whose definition carries a truthy
(non-empty) name replaces any earlier tool under that name — lookups and
`execute_tool` dispatch to the most recent tool, and on a
distinct-key registry exactly one entry remains under that name;
`register_tool` raises `ValueError` when the name is missing **or** when
it is present but the empty string (`if not tool_name:` is a truthiness
test), not only when the definition has no name. -/
theorem c10_register_replaces (m : ToolManager) (t : Tool)
    (kwargs : List (String × String)) :
    (t.definition.name = none ∨ t.definition.name = some "" →
       ToolManager.register_tool m t =
         .error "Tool must have a 'name' in its definition") ∧
    (∀ n : String, t.definition.name = some n → n ≠ "" →
       ∃ m2 : ToolManager, ToolManager.register_tool m t = .ok m2 ∧
         ToolManager.dictGet m2.tools n = some t ∧
         ToolManager.execute_tool m2 n kwargs = t.execute kwargs ∧
         ((m.tools.map Prod.fst).Nodup →
           (m2.tools.map Prod.fst).Nodup ∧
           (m2.tools.map Prod.fst).count n = 1)) := by
  constructor
  · intro h
    rcases h with h | h <;> simp [ToolManager.register_tool, h, optStrTruthy]
  · intro n hn hne
    have ht : optStrTruthy (some n) = true := by
      simp [optStrTruthy, hne]
    refine ⟨⟨ToolManager.dictSet m.tools n t⟩, ?_, ?_, ?_, ?_⟩
    · simp [ToolManager.register_tool, hn, ht]
    · exact dictGet_dictSet_self n t m.tools
    · simp [ToolManager.execute_tool, dictGet_dictSet_self n t m.tools]
    · exact keys_dictSet_nodup_count n t m.tools

/-- C10 counterexample: a definition whose `"name"` key is present but
empty still raises — `register_tool` does not raise only on a missing
name. -/
theorem c10_blank_name_rejected :
    ToolManager.register_tool ⟨[]⟩ toolBlankName =
      .error "Tool must have a 'name' in its definition" ∧
    toolBlankName.definition.name ≠ none := by
  refine ⟨rfl, ?_⟩
  intro h
  exact Option.noConfusion h

/-- C10 witness: re-registering the name `alpha` on a one-tool registry
replaces the earlier tool and dispatches to the new one. -/
theorem c10_register_replaces_witness :
    ∃ m2 : ToolManager,
      ToolManager.register_tool mgrOne toolAlphaNew = .ok m2 ∧
      ToolManager.dictGet m2.tools "alpha" = some toolAlphaNew ∧
      ToolManager.execute_tool m2 "alpha" [] = toolAlphaNew.execute [] ∧
      ((mgrOne.tools.map Prod.fst).Nodup →
        (m2.tools.map Prod.fst).Nodup ∧
        (m2.tools.map Prod.fst).count "alpha" = 1) :=
  (c10_register_replaces mgrOne toolAlphaNew []).2 "alpha" rfl (by decide)
